import Mathlib

/-!
Verification of the VescUart framing/validation/codec layer.

The repository ships only the class header `src/VescUart.h`; the method
bodies (`VescUart.cpp`) are not part of the sources. The header fixes the
data model (`dataPackage`, the single `data` member) and every method
signature; the behaviour of the private helpers (`packSendPayload`,
`receiveUartMessage`, `unpackPayload`, `processReadPacket`) and of the
CRC16 engine is modelled here from the specification, as noted on each
definition. Bytes are modelled as `Nat` values below 256, 16-bit CRC
registers as `Nat` values below 65536, and the fixed-point telemetry
fields as exact rationals (the wire value divided by the protocol scale).
-/

/-- Error kinds of the protocol layer (spec section 7). -/
inductive VescError where
  | EncodingTooLarge
  | Timeout
  | Malformed
  | CrcMismatch
  | ShortPayload
  | TransportUnavailable
deriving DecidableEq

/-- Modelled from the spec: the CRC16 engine (section 4.1). One
shift-and-conditional-XOR step: shift the 16-bit register left one bit and
XOR with the polynomial 0x1021 when the bit shifted out was set. The
implementation file holding `crc16` is not under the sources; only its
header include is. -/
def crcBit (c : Nat) : Nat :=
  if 32768 ≤ c then Nat.xor ((c * 2) % 65536) 4129 else (c * 2) % 65536

/-- Iterate `crcBit` the given number of times (8 per input byte). -/
def crcBits : Nat → Nat → Nat
  | 0, c => c
  | k + 1, c => crcBits k (crcBit c)

/-- Modelled from the spec: absorb one input byte into the CRC register
(XOR into the high byte, then 8 bit steps). -/
def crcByte (c b : Nat) : Nat := crcBits 8 (Nat.xor c ((b % 256) * 256))

/-- Modelled from the spec: CCITT-variant CRC16 (polynomial 0x1021,
initial value 0, no reflection) over a byte sequence. -/
def crc16 (bs : List Nat) : Nat := bs.foldl crcByte 0

/-- Modelled from the spec: the complete wire frame for a payload
(section 4.2 and section 6). Start marker A (value 2) with a 1-byte
length field when the payload length is below 256; start marker B
(value 3) with a 2-byte big-endian length field otherwise; then the
payload, the CRC16 of the payload as 2 big-endian bytes, and the fixed
stop marker byte (value 3). -/
def frameBytes (payload : List Nat) : List Nat :=
  (if payload.length < 256 then [2, payload.length]
   else [3, payload.length / 256, payload.length % 256])
    ++ payload ++ [crc16 payload / 256, crc16 payload % 256, 3]

/-- Modelled from the spec: the frame encoder `packSendPayload`
(section 4.2); its body is not under the sources, only its declaration in
`VescUart.h` lines 131-138. Fails with an encoding error, without
truncation, exactly when the payload length exceeds 65535. -/
def packSendPayload (payload : List Nat) : Except VescError (List Nat) :=
  if payload.length > 65535 then Except.error VescError.EncodingTooLarge
  else Except.ok (frameBytes payload)

/-- States of the frame receiver (spec section 4.3): seeking a start
marker, reading a 1-byte length, reading the two bytes of a 2-byte
length, accumulating the payload plus CRC plus stop bytes with a
countdown of bytes still owed, or done with the extracted payload and
embedded CRC. -/
inductive RxState where
  | seekStart
  | readLen1
  | readLen2a
  | readLen2b (hi : Nat)
  | accumulate (n : Nat) (acc : List Nat) (k : Nat)
  | done (payload : List Nat) (crc : Nat)

/-- Big-endian value of a 2-byte list (the embedded CRC field). -/
def beWord : List Nat → Nat
  | [x, y] => x * 256 + y
  | _ => 0

/-- Modelled from the spec: one transition of the frame receiver state
machine on one received byte (section 4.3). Bytes before a start marker
are dropped silently; a candidate frame whose final byte is not the stop
marker is discarded whole and the machine returns to seeking a start
marker; a completed frame absorbs any further bytes. -/
def stepRx (s : RxState) (b : Nat) : RxState :=
  match s with
  | RxState.seekStart =>
      if b = 2 then RxState.readLen1
      else if b = 3 then RxState.readLen2a
      else RxState.seekStart
  | RxState.readLen1 => RxState.accumulate b [] (b + 3)
  | RxState.readLen2a => RxState.readLen2b b
  | RxState.readLen2b hi =>
      RxState.accumulate (hi * 256 + b) [] (hi * 256 + b + 3)
  | RxState.accumulate n acc k =>
      if k = 1 then
        if b = 3 then RxState.done (acc.take n) (beWord (acc.drop n))
        else RxState.seekStart
      else RxState.accumulate n (acc ++ [b]) (k - 1)
  | RxState.done p c => RxState.done p c

/-- Run the receiver state machine over a list of received bytes. -/
def runRx (s : RxState) (bs : List Nat) : RxState := bs.foldl stepRx s

/-- Modelled from the spec: the frame receiver `receiveUartMessage`
(section 4.3); its body is not under the sources, only its declaration in
`VescUart.h` lines 140-146. The argument list is the sequence of bytes
the transport delivers before the single absolute deadline elapses; if no
complete, stop-terminated frame is assembled from them the call fails
with Timeout and returns no partial data. -/
def receiveUartMessage (rx : List Nat) : Except VescError (List Nat × Nat) :=
  match runRx RxState.seekStart rx with
  | RxState.done p c => Except.ok (p, c)
  | _ => Except.error VescError.Timeout

/-- Modelled from the spec: the payload validator `unpackPayload`
(section 4.4); its body is not under the sources, only its declaration in
`VescUart.h` lines 148-156. Recomputes the CRC16 over the raw payload
bytes, compares with the embedded value, and on mismatch returns the
distinct CrcMismatch error without any decode of the payload. -/
def unpackPayload (payload : List Nat) (embeddedCrc : Nat) :
    Except VescError (List Nat) :=
  if crc16 payload = embeddedCrc then Except.ok payload
  else Except.error VescError.CrcMismatch

/-- Telemetry record, from `VescUart.h` lines 11-22. The floating-point
fields of the source struct are modelled as exact rationals (the decoded
fixed-point quotient); the `long` fields as integers. -/
structure dataPackage where
  avgMotorCurrent : ℚ
  avgInputCurrent : ℚ
  dutyCycleNow : ℚ
  rpm : Int
  inpVoltage : ℚ
  ampHours : ℚ
  ampHoursCharged : ℚ
  tachometer : Int
  tachometerAbs : Int
deriving DecidableEq

/-- Byte of a list at an index, zero past the end. -/
def byteAt (bs : List Nat) (i : Nat) : Nat := bs.getD i 0

/-- Big-endian 16-bit wire value starting at an offset. -/
def be16at (bs : List Nat) (i : Nat) : Nat :=
  byteAt bs i * 256 + byteAt bs (i + 1)

/-- Big-endian 32-bit wire value starting at an offset. -/
def be32at (bs : List Nat) (i : Nat) : Nat :=
  ((byteAt bs i * 256 + byteAt bs (i + 1)) * 256 + byteAt bs (i + 2)) * 256
    + byteAt bs (i + 3)

/-- Two's-complement reading of a 16-bit wire value. -/
def toInt16 (n : Nat) : Int :=
  if n < 32768 then (n : Int) else (n : Int) - 65536

/-- Two's-complement reading of a 32-bit wire value. -/
def toInt32 (n : Nat) : Int :=
  if n < 2147483648 then (n : Int) else (n : Int) - 4294967296

/-- Modelled from the spec: the telemetry decoder `processReadPacket`
(section 4.6); its body is not under the sources, only its declaration in
`VescUart.h` lines 158-164. After the 1-byte command identifier it reads,
in order, the big-endian fields at fixed offsets — motor current (32-bit,
scale 100), input current (32-bit, scale 100), duty cycle (16-bit, scale
1000), RPM (32-bit signed), input voltage (16-bit, scale 10), amp-hours
(32-bit, scale 10000), amp-hours charged (32-bit, scale 10000),
tachometer and absolute tachometer (32-bit signed) — 33 bytes in all;
with fewer bytes it fails with ShortPayload and decodes nothing. -/
def processReadPacket (payload : List Nat) : Except VescError dataPackage :=
  if payload.length < 33 then Except.error VescError.ShortPayload
  else Except.ok
    { avgMotorCurrent := (toInt32 (be32at payload 1) : ℚ) / 100
      avgInputCurrent := (toInt32 (be32at payload 5) : ℚ) / 100
      dutyCycleNow := (toInt16 (be16at payload 9) : ℚ) / 1000
      rpm := toInt32 (be32at payload 11)
      inpVoltage := (toInt16 (be16at payload 15) : ℚ) / 10
      ampHours := (toInt32 (be32at payload 17) : ℚ) / 10000
      ampHoursCharged := (toInt32 (be32at payload 21) : ℚ) / 10000
      tachometer := toInt32 (be32at payload 25)
      tachometerAbs := toInt32 (be32at payload 29) }

/-- Modelled from the spec: the telemetry request `getVescValues`
(`VescUart.h` lines 57-63 declare it; its body is not under the sources).
It frames and sends a get-telemetry payload — the optional controller id
only shapes the outbound forwarding envelope — then receives one frame
from the bytes `rx` arriving before the deadline, validates the CRC and
decodes the telemetry. It returns the success flag and the new value of
the single `data` member: on any failure the previously stored record is
returned unchanged, on success the fully decoded record replaces it
wholesale. -/
def getVescValues (st : dataPackage) (controllerId : Option Nat)
    (rx : List Nat) : Bool × dataPackage :=
  match receiveUartMessage rx with
  | Except.error _ => (false, st)
  | Except.ok pc =>
      match unpackPayload pc.1 pc.2 with
      | Except.error _ => (false, st)
      | Except.ok q =>
          match processReadPacket q with
          | Except.error _ => (false, st)
          | Except.ok d => (true, d)

/-- Modelled from the spec: firmware-mandated command identifiers
(section 4.5 and section 9 treat them as an externally given enumeration;
the exact numeric values are protocol constants external to this core). -/
def COMM_GET_VALUES : Nat := 4

/-- Firmware-mandated identifier for the set-duty command. -/
def COMM_SET_DUTY : Nat := 5

/-- Firmware-mandated identifier for the set-current command. -/
def COMM_SET_CURRENT : Nat := 6

/-- Firmware-mandated identifier for the set-brake-current command. -/
def COMM_SET_CURRENT_BRAKE : Nat := 7

/-- Firmware-mandated identifier for the set-RPM command. -/
def COMM_SET_RPM : Nat := 8

/-- Firmware-mandated identifier for the stop-motor command. -/
def COMM_STOP : Nat := 9

/-- Firmware-mandated identifier for the open-loop run command. -/
def COMM_FOC_OPENLOOP : Nat := 10

/-- Firmware-mandated identifier for the joystick-state command. -/
def COMM_SET_CHUCK_DATA : Nat := 35

/-- Firmware-mandated identifier for the forwarding command. -/
def COMM_FORWARD_CAN : Nat := 34

/-- Big-endian two's-complement bytes of a 32-bit signed field. -/
def int32beBytes (v : Int) : List Nat :=
  [(v % 4294967296).toNat / 16777216 % 256,
   (v % 4294967296).toNat / 65536 % 256,
   (v % 4294967296).toNat / 256 % 256,
   (v % 4294967296).toNat % 256]

/-- The outbound command kinds of the caller-facing interface
(spec section 4.5). -/
inductive Command where
  | getValues
  | setCurrent (current : ℚ)
  | setBrakeCurrent (brakeCurrent : ℚ)
  | setRPM (rpm : Int)
  | setDuty (duty : ℚ)
  | stopMotor
  | focOpenloop (current : ℚ) (eRPM : Int)
  | setNunchuckValues (valueX valueY : Int) (upperButton lowerButton : Bool)

/-- Modelled from the spec: the payload a command produces when it
addresses the local controller directly (section 4.5; the method bodies
are not under the sources). Fractional fields are sent as fixed-point
integers, rounded to nearest, with the scale the telemetry decoder
divides by; RPM and electrical RPM are plain signed 32-bit integers. -/
def localPayload : Command → List Nat
  | Command.getValues => [COMM_GET_VALUES]
  | Command.setCurrent c => COMM_SET_CURRENT :: int32beBytes (round (c * 100))
  | Command.setBrakeCurrent c =>
      COMM_SET_CURRENT_BRAKE :: int32beBytes (round (c * 100))
  | Command.setRPM r => COMM_SET_RPM :: int32beBytes r
  | Command.setDuty d => COMM_SET_DUTY :: int32beBytes (round (d * 1000))
  | Command.stopMotor => [COMM_STOP]
  | Command.focOpenloop c e =>
      COMM_FOC_OPENLOOP :: (int32beBytes (round (c * 100)) ++ int32beBytes e)
  | Command.setNunchuckValues x y ub lb =>
      [COMM_SET_CHUCK_DATA, (x % 256).toNat, (y % 256).toNat,
       if ub then 1 else 0, if lb then 1 else 0]

/-- Modelled from the spec: the payload actually encoded for a command,
given the optional secondary-controller address (section 4.5, section 6).
With no address the command travels unwrapped; with an address the
ordinary payload is wrapped in the forwarding envelope: forwarding
identifier, target address byte, inner-command length byte, then the
inner-command bytes. -/
def encodePayload (cmd : Command) : Option Nat → List Nat
  | none => localPayload cmd
  | some addr =>
      COMM_FORWARD_CAN :: addr % 256 :: (localPayload cmd).length % 256
        :: localPayload cmd

/-- Return types of the caller-facing methods as declared in
`VescUart.h`. -/
inductive RetType where
  | void
  | boolean
deriving DecidableEq

/-- The caller-facing operations declared in the public section of
`VescUart.h`. -/
inductive ApiOp where
  | getVescValues
  | scanCAN
  | focOpenloop
  | stopCmd
  | setNunchuckValues
  | setCurrent
  | setBrakeCurrent
  | setRPM
  | setDuty
deriving DecidableEq

/-- The declared return type of each caller-facing operation, read off
`VescUart.h` lines 63, 68, 76, 82, 87, 94, 101, 108 and 115. -/
def declaredReturn : ApiOp → RetType
  | ApiOp.getVescValues => RetType.boolean
  | ApiOp.scanCAN => RetType.boolean
  | ApiOp.focOpenloop => RetType.void
  | ApiOp.stopCmd => RetType.void
  | ApiOp.setNunchuckValues => RetType.void
  | ApiOp.setCurrent => RetType.void
  | ApiOp.setBrakeCurrent => RetType.void
  | ApiOp.setRPM => RetType.void
  | ApiOp.setDuty => RetType.void

/-- Whether a declared return type can carry a discriminated failure
result back to the immediate caller: a `void` declaration cannot. -/
def reportsFailureResult : RetType → Bool
  | RetType.void => false
  | RetType.boolean => true

/-- A concrete all-zero telemetry record, used as a previous state in
witnesses. -/
def dp0 : dataPackage :=
  { avgMotorCurrent := 0, avgInputCurrent := 0, dutyCycleNow := 0, rpm := 0
    inpVoltage := 0, ampHours := 0, ampHoursCharged := 0, tachometer := 0
    tachometerAbs := 0 }

/-- A second concrete telemetry record, distinct from `dp0`. -/
def dp1 : dataPackage :=
  { avgMotorCurrent := 1, avgInputCurrent := 2, dutyCycleNow := 0, rpm := 7
    inpVoltage := 36, ampHours := 0, ampHoursCharged := 0, tachometer := 5
    tachometerAbs := 5 }

/-- A concrete CRC-valid telemetry response payload: the command
identifier followed by 32 zero bytes. -/
def pW : List Nat := COMM_GET_VALUES :: List.replicate 32 0

/-- The frame carrying `pW`, as a concrete received byte stream. -/
def rxW : List Nat := frameBytes pW

/-! ## Arithmetic invariants of the CRC16 engine -/

theorem xor16_lt (a b : Nat) (ha : a < 65536) (hb : b < 65536) :
    Nat.xor a b < 65536 := by
  have e : (65536 : Nat) = 2 ^ 16 := by norm_num
  rw [e] at ha hb ⊢
  exact Nat.xor_lt_two_pow ha hb

theorem crcBit_lt (c : Nat) : crcBit c < 65536 := by
  unfold crcBit
  have h1 : (c * 2) % 65536 < 65536 := Nat.mod_lt _ (by norm_num)
  split
  · exact xor16_lt _ _ h1 (by norm_num)
  · exact h1

theorem crcBits_lt : ∀ (k c : Nat), c < 65536 → crcBits k c < 65536
  | 0, _, h => h
  | k + 1, c, _ => crcBits_lt k (crcBit c) (crcBit_lt c)

theorem crcByte_lt (c b : Nat) (hc : c < 65536) : crcByte c b < 65536 := by
  unfold crcByte
  apply crcBits_lt
  apply xor16_lt _ _ hc
  have hb : b % 256 < 256 := Nat.mod_lt _ (by norm_num)
  omega

theorem foldl_crcByte_lt (bs : List Nat) :
    ∀ c : Nat, c < 65536 → bs.foldl crcByte c < 65536 := by
  induction bs with
  | nil => intro c h; exact h
  | cons b bs ih =>
    intro c h
    rw [List.foldl_cons]
    exact ih (crcByte c b) (crcByte_lt c b h)

theorem crc16_lt (bs : List Nat) : crc16 bs < 65536 :=
  foldl_crcByte_lt bs 0 (by norm_num)

/-! ## Runs of the receiver state machine -/

theorem runRx_cons (s : RxState) (b : Nat) (bs : List Nat) :
    runRx s (b :: bs) = runRx (stepRx s b) bs := rfl

theorem beWord_pair (x y : Nat) : beWord [x, y] = x * 256 + y := rfl

theorem runRx_done (p : List Nat) (c : Nat) (bs : List Nat) :
    runRx (RxState.done p c) bs = RxState.done p c := by
  induction bs with
  | nil => rfl
  | cons b bs ih => rw [runRx_cons]; exact ih

theorem runRx_accumulate (c1 c2 : Nat) :
    ∀ (xs acc : List Nat) (n : Nat) (tail : List Nat),
    runRx (RxState.accumulate n acc (xs.length + 3)) (xs ++ c1 :: c2 :: 3 :: tail)
      = runRx (RxState.done ((acc ++ xs ++ [c1, c2]).take n)
          (beWord ((acc ++ xs ++ [c1, c2]).drop n))) tail := by
  intro xs
  induction xs with
  | nil =>
    intro acc n tail
    simp only [List.nil_append, List.length_nil, Nat.zero_add]
    rw [runRx_cons, runRx_cons, runRx_cons]
    simp [stepRx, List.append_assoc]
  | cons x xs ih =>
    intro acc n tail
    rw [List.cons_append, runRx_cons]
    simp only [stepRx, List.length_cons]
    rw [if_neg (by omega)]
    have harith : xs.length + 1 + 3 - 1 = xs.length + 3 := by omega
    rw [harith, ih (acc ++ [x]) n tail]
    simp [List.append_assoc]

theorem runRx_frame (p : List Nat) (tail : List Nat) :
    runRx RxState.seekStart (frameBytes p ++ tail) = RxState.done p (crc16 p) := by
  unfold frameBytes
  by_cases h : p.length < 256
  · rw [if_pos h]
    simp only [List.cons_append, List.nil_append, List.append_assoc]
    rw [runRx_cons, runRx_cons]
    have s1 : stepRx RxState.seekStart 2 = RxState.readLen1 := rfl
    have s2 : stepRx RxState.readLen1 p.length
        = RxState.accumulate p.length [] (p.length + 3) := rfl
    rw [s1, s2, runRx_accumulate (crc16 p / 256) (crc16 p % 256) p [] p.length tail,
      runRx_done]
    simp only [List.nil_append]
    rw [List.take_left, List.drop_left, beWord_pair]
    have hcrc : crc16 p / 256 * 256 + crc16 p % 256 = crc16 p := by omega
    rw [hcrc]
  · rw [if_neg h]
    simp only [List.cons_append, List.nil_append, List.append_assoc]
    rw [runRx_cons, runRx_cons, runRx_cons]
    have s1 : stepRx RxState.seekStart 3 = RxState.readLen2a := rfl
    have s2 : stepRx RxState.readLen2a (p.length / 256)
        = RxState.readLen2b (p.length / 256) := rfl
    have s3 : stepRx (RxState.readLen2b (p.length / 256)) (p.length % 256)
        = RxState.accumulate (p.length / 256 * 256 + p.length % 256) []
            (p.length / 256 * 256 + p.length % 256 + 3) := rfl
    rw [s1, s2, s3]
    have e : p.length / 256 * 256 + p.length % 256 = p.length := by omega
    rw [e, runRx_accumulate (crc16 p / 256) (crc16 p % 256) p [] p.length tail,
      runRx_done]
    simp only [List.nil_append]
    rw [List.take_left, List.drop_left, beWord_pair]
    have hcrc : crc16 p / 256 * 256 + crc16 p % 256 = crc16 p := by omega
    rw [hcrc]

theorem receive_frame (p : List Nat) (tail : List Nat) :
    receiveUartMessage (frameBytes p ++ tail) = Except.ok (p, crc16 p) := by
  unfold receiveUartMessage
  rw [runRx_frame]

theorem runRx_seek_skip :
    ∀ (g : List Nat), (∀ b ∈ g, b ≠ 2 ∧ b ≠ 3) →
    ∀ rest, runRx RxState.seekStart (g ++ rest) = runRx RxState.seekStart rest := by
  intro g
  induction g with
  | nil => intro _ rest; rfl
  | cons b g ih =>
    intro h rest
    have hb := h b (List.mem_cons_self b g)
    rw [List.cons_append, runRx_cons]
    have hs : stepRx RxState.seekStart b = RxState.seekStart := by
      simp [stepRx, hb.1, hb.2]
    rw [hs]
    exact ih (fun x hx => h x (List.mem_cons_of_mem b hx)) rest

/-! ## Claim theorems -/

/-- Claim C1: for every payload of length at most 65535, framing it with
the frame encoder and running the frame receiver plus payload validator
over the resulting bytes on an error-free transport yields exactly the
bytes of the payload, unchanged and of the same length. -/
theorem frame_roundtrip (p : List Nat) (h : p.length ≤ 65535) :
    ∃ f, packSendPayload p = Except.ok f ∧
      receiveUartMessage f = Except.ok (p, crc16 p) ∧
      unpackPayload p (crc16 p) = Except.ok p := by
  refine ⟨frameBytes p, ?_, ?_, ?_⟩
  · unfold packSendPayload
    rw [if_neg (by omega)]
  · have hr := receive_frame p []
    rw [List.append_nil] at hr
    exact hr
  · unfold unpackPayload
    rw [if_pos rfl]

/-- Witness for C1 at the concrete payload [1, 2, 3]. -/
theorem frame_roundtrip_witness :
    ∃ f, packSendPayload [1, 2, 3] = Except.ok f ∧
      receiveUartMessage f = Except.ok ([1, 2, 3], crc16 [1, 2, 3]) ∧
      unpackPayload [1, 2, 3] (crc16 [1, 2, 3]) = Except.ok [1, 2, 3] :=
  frame_roundtrip [1, 2, 3] (by norm_num)

/-- Claim C2: the frame encoder emits start marker A (2) with a 1-byte
length field for payload lengths below 256, start marker B (3) with a
2-byte big-endian length field for lengths from 256 up to 65535, then the
payload, the CRC16 of the payload as 2 big-endian bytes, then the fixed
stop marker byte; it fails with an encoding error, without truncation,
exactly when the payload length exceeds 65535. -/
theorem packSendPayload_format (p : List Nat) :
    (p.length < 256 →
      packSendPayload p
        = Except.ok (2 :: p.length
            :: (p ++ [crc16 p / 256, crc16 p % 256, 3]))) ∧
    (256 ≤ p.length → p.length ≤ 65535 →
      packSendPayload p
        = Except.ok (3 :: p.length / 256 :: p.length % 256
            :: (p ++ [crc16 p / 256, crc16 p % 256, 3]))) ∧
    (65535 < p.length →
      packSendPayload p = Except.error VescError.EncodingTooLarge) ∧
    crc16 p / 256 < 256 ∧ crc16 p % 256 < 256 := by
  have hc := crc16_lt p
  refine ⟨?_, ?_, ?_, by omega, by omega⟩
  · intro h1
    unfold packSendPayload frameBytes
    rw [if_neg (by omega), if_pos h1]
    simp
  · intro h1 h2
    unfold packSendPayload frameBytes
    rw [if_neg (by omega), if_neg (by omega)]
    simp
  · intro h1
    unfold packSendPayload
    rw [if_pos (by omega)]

/-- Witness for C2 at the concrete payload [5]. -/
theorem packSendPayload_format_witness :
    [5].length < 256 ∧
    packSendPayload [5]
      = Except.ok (2 :: [5].length
          :: ([5] ++ [crc16 [5] / 256, crc16 [5] % 256, 3])) :=
  ⟨by norm_num, (packSendPayload_format [5]).1 (by norm_num)⟩

/-- Claim C3: the payload validator succeeds if and only if the CRC16
recomputed over the raw payload bytes equals the embedded CRC; any
success returns exactly the payload, and on mismatch it returns the
distinct CrcMismatch failure with no decode of the payload. -/
theorem unpackPayload_crc_iff (payload : List Nat) (embeddedCrc : Nat) :
    (unpackPayload payload embeddedCrc = Except.ok payload
      ↔ crc16 payload = embeddedCrc) ∧
    (∀ q, unpackPayload payload embeddedCrc = Except.ok q → q = payload) ∧
    (crc16 payload ≠ embeddedCrc →
      unpackPayload payload embeddedCrc = Except.error VescError.CrcMismatch) := by
  unfold unpackPayload
  by_cases h : crc16 payload = embeddedCrc
  · rw [if_pos h]
    exact ⟨by simp [h], fun q hq => (Except.ok.inj hq).symm,
      fun hne => absurd h hne⟩
  · rw [if_neg h]
    refine ⟨by simp [h], ?_, fun _ => rfl⟩
    intro q hq
    exact Except.noConfusion hq

/-- Witness for C3: a mismatching CRC at the concrete payload [1]. -/
theorem unpackPayload_crc_iff_witness :
    crc16 [1] ≠ 0 ∧ unpackPayload [1] 0 = Except.error VescError.CrcMismatch :=
  ⟨by decide, (unpackPayload_crc_iff [1] 0).2.2 (by decide)⟩

/-- Claim C4: for every CRC-valid telemetry payload of at least 33 bytes
the telemetry decoder reads, in order after the 1-byte command
identifier, the big-endian fields — motor current (32-bit, scale 100),
input current (32-bit, scale 100), duty cycle (16-bit, scale 1000), RPM
(32-bit signed, unscaled), input voltage (16-bit, scale 10), amp-hours
(32-bit, scale 10000), amp-hours charged (32-bit, scale 10000),
tachometer and absolute tachometer (32-bit signed, unscaled) — storing
each quotient or value into the matching field of the dataPackage
record; with fewer bytes than the layout requires it fails with
ShortPayload and fills nothing. -/
theorem processReadPacket_layout (p : List Nat) :
    (33 ≤ p.length → processReadPacket p = Except.ok
      { avgMotorCurrent := (toInt32 (be32at p 1) : ℚ) / 100
        avgInputCurrent := (toInt32 (be32at p 5) : ℚ) / 100
        dutyCycleNow := (toInt16 (be16at p 9) : ℚ) / 1000
        rpm := toInt32 (be32at p 11)
        inpVoltage := (toInt16 (be16at p 15) : ℚ) / 10
        ampHours := (toInt32 (be32at p 17) : ℚ) / 10000
        ampHoursCharged := (toInt32 (be32at p 21) : ℚ) / 10000
        tachometer := toInt32 (be32at p 25)
        tachometerAbs := toInt32 (be32at p 29) }) ∧
    (p.length < 33 → processReadPacket p = Except.error VescError.ShortPayload) := by
  constructor
  · intro h
    unfold processReadPacket
    rw [if_neg (by omega)]
  · intro h
    unfold processReadPacket
    rw [if_pos h]

/-- Witness for C4 at the concrete 33-byte all-zero payload. -/
theorem processReadPacket_layout_witness :
    33 ≤ (List.replicate 33 0).length ∧
    processReadPacket (List.replicate 33 0) = Except.ok
      { avgMotorCurrent := (toInt32 (be32at (List.replicate 33 0) 1) : ℚ) / 100
        avgInputCurrent := (toInt32 (be32at (List.replicate 33 0) 5) : ℚ) / 100
        dutyCycleNow := (toInt16 (be16at (List.replicate 33 0) 9) : ℚ) / 1000
        rpm := toInt32 (be32at (List.replicate 33 0) 11)
        inpVoltage := (toInt16 (be16at (List.replicate 33 0) 15) : ℚ) / 10
        ampHours := (toInt32 (be32at (List.replicate 33 0) 17) : ℚ) / 10000
        ampHoursCharged := (toInt32 (be32at (List.replicate 33 0) 21) : ℚ) / 10000
        tachometer := toInt32 (be32at (List.replicate 33 0) 25)
        tachometerAbs := toInt32 (be32at (List.replicate 33 0) 29) } :=
  ⟨by decide, (processReadPacket_layout (List.replicate 33 0)).1 (by decide)⟩

/-- Claim C5: the frame receiver is bounded by one absolute deadline; on
a transport whose bytes before the deadline never contain a start marker
no frame is assembled, the call fails with Timeout, it returns no partial
data, and a telemetry request over it performs no partial update of the
stored record. -/
theorem receive_timeout_no_partial (bs : List Nat) (st : dataPackage)
    (cid : Option Nat) (h : ∀ b ∈ bs, b ≠ 2 ∧ b ≠ 3) :
    receiveUartMessage bs = Except.error VescError.Timeout ∧
    getVescValues st cid bs = (false, st) := by
  have hs : runRx RxState.seekStart bs = RxState.seekStart := by
    have hskip := runRx_seek_skip bs h []
    rw [List.append_nil] at hskip
    exact hskip
  have hr : receiveUartMessage bs = Except.error VescError.Timeout := by
    unfold receiveUartMessage
    rw [hs]
  refine ⟨hr, ?_⟩
  unfold getVescValues
  rw [hr]

/-- Witness for C5 at the concrete marker-free byte stream [0, 1, 255]. -/
theorem receive_timeout_no_partial_witness :
    receiveUartMessage [0, 1, 255] = Except.error VescError.Timeout ∧
    getVescValues dp0 none [0, 1, 255] = (false, dp0) :=
  receive_timeout_no_partial [0, 1, 255] dp0 none (by decide)

/-- Claim C6: every failing execution of a telemetry request leaves every
field of the previously stored telemetry record unchanged; the record is
only ever replaced wholesale by a fully successful decode. -/
theorem getVescValues_atomic_update (st : dataPackage) (cid : Option Nat)
    (rx : List Nat) :
    ((getVescValues st cid rx).1 = false → (getVescValues st cid rx).2 = st) ∧
    ((getVescValues st cid rx).1 = true →
      ∃ p c d, receiveUartMessage rx = Except.ok (p, c) ∧
        unpackPayload p c = Except.ok p ∧ processReadPacket p = Except.ok d ∧
        (getVescValues st cid rx).2 = d) := by
  rcases hr : receiveUartMessage rx with e | pc
  · simp [getVescValues, hr]
  · rcases hu : unpackPayload pc.1 pc.2 with e | q
    · simp [getVescValues, hr, hu]
    · rcases hp : processReadPacket q with e | d
      · simp [getVescValues, hr, hu, hp]
      · have hq : q = pc.1 := by
          unfold unpackPayload at hu
          split at hu
          · exact (Except.ok.inj hu).symm
          · exact Except.noConfusion hu
        constructor
        · intro hfalse
          exfalso
          simp [getVescValues, hr, hu, hp] at hfalse
        · intro _
          refine ⟨pc.1, pc.2, d, ?_, ?_, ?_, ?_⟩
          · simpa using hr
          · rw [hu, hq]
          · rw [← hq]
            exact hp
          · simp [getVescValues, hr, hu, hp]

/-- Witness for C6: a failing request (empty byte stream) leaves the
stored record dp1 unchanged. -/
theorem getVescValues_atomic_update_witness :
    (getVescValues dp1 none []).1 = false ∧ (getVescValues dp1 none []).2 = dp1 :=
  ⟨by decide, (getVescValues_atomic_update dp1 none []).1 (by decide)⟩

/-- Claim C7: on a byte stream of non-start-marker garbage, then one
well-formed frame, then arbitrary further bytes, the frame receiver
silently discards the leading bytes, extracts exactly the payload of the
valid frame, and ignores the surrounding noise. -/
theorem receive_resync (g1 g2 p : List Nat)
    (h1 : ∀ b ∈ g1, b ≠ 2 ∧ b ≠ 3) :
    receiveUartMessage (g1 ++ frameBytes p ++ g2) = Except.ok (p, crc16 p) := by
  rw [List.append_assoc]
  unfold receiveUartMessage
  rw [runRx_seek_skip g1 h1 (frameBytes p ++ g2), runRx_frame]

/-- Witness for C7: garbage [0, 255], the frame of payload [9], then
trailing bytes [7, 2]. -/
theorem receive_resync_witness :
    receiveUartMessage ([0, 255] ++ frameBytes [9] ++ [7, 2])
      = Except.ok ([9], crc16 [9]) :=
  receive_resync [0, 255] [7, 2] [9] (by decide)

/-- Claim C8: for every command kind and every supplied
secondary-controller address, the encoded outbound payload is the
forwarding envelope — forwarding identifier, target address byte,
inner-command length byte — followed by inner-command bytes that are
byte-for-byte the payload the same command produces with no address. -/
theorem forward_envelope (cmd : Command) (addr : Nat) :
    encodePayload cmd (some addr)
      = COMM_FORWARD_CAN :: addr % 256 :: (localPayload cmd).length % 256
          :: encodePayload cmd none ∧
    (encodePayload cmd (some addr)).drop 3 = encodePayload cmd none :=
  ⟨rfl, rfl⟩

/-- Claim C9 as stated is false on the declarations of `VescUart.h`: the
fire-and-forget command `setCurrent` is declared `void`, so no
discriminated failure result reaches its immediate caller. -/
theorem setCurrent_void_counterexample :
    reportsFailureResult (declaredReturn ApiOp.setCurrent) = false := rfl

/-- Claim C9 (amended): only the query operations `getVescValues` and
`scanCAN` report failure to the immediate caller through their declared
bool result; the fire-and-forget commands (set current, set brake
current, set RPM, set duty, stop, open-loop run, joystick state) are
declared void, so their failures are not reported to the caller (nor
escalated as fatal aborts). -/
theorem api_error_reporting_amended :
    reportsFailureResult (declaredReturn ApiOp.getVescValues) = true ∧
    reportsFailureResult (declaredReturn ApiOp.scanCAN) = true ∧
    declaredReturn ApiOp.setCurrent = RetType.void ∧
    declaredReturn ApiOp.setBrakeCurrent = RetType.void ∧
    declaredReturn ApiOp.setRPM = RetType.void ∧
    declaredReturn ApiOp.setDuty = RetType.void ∧
    declaredReturn ApiOp.stopCmd = RetType.void ∧
    declaredReturn ApiOp.focOpenloop = RetType.void ∧
    declaredReturn ApiOp.setNunchuckValues = RetType.void :=
  ⟨rfl, rfl, rfl, rfl, rfl, rfl, rfl, rfl, rfl⟩

/-- Claim C10: the class holds exactly one telemetry record shared across
all controller addresses; a successful telemetry request overwrites that
record identically whatever controller id is used and whatever record —
fetched from any other controller — was stored before, so the previous
telemetry is lost. -/
theorem data_single_record (st st' : dataPackage) (cid cid' : Option Nat)
    (rx : List Nat) (h : (getVescValues st cid rx).1 = true) :
    (getVescValues st' cid' rx).1 = true ∧
    (getVescValues st cid rx).2 = (getVescValues st' cid' rx).2 := by
  rcases hr : receiveUartMessage rx with e | pc
  · simp [getVescValues, hr] at h
  · rcases hu : unpackPayload pc.1 pc.2 with e | q
    · simp [getVescValues, hr, hu] at h
    · rcases hp : processReadPacket q with e | d
      · simp [getVescValues, hr, hu, hp] at h
      · constructor <;> simp [getVescValues, hr, hu, hp]

set_option maxRecDepth 20000 in
/-- Witness for C10: a successful request on the concrete frame `rxW`
overwrites both `dp0` and the distinct `dp1` with the same record,
whether addressed locally or to controller 2. -/
theorem data_single_record_witness :
    (getVescValues dp0 none rxW).1 = true ∧
    ((getVescValues dp1 (some 2) rxW).1 = true ∧
      (getVescValues dp0 none rxW).2 = (getVescValues dp1 (some 2) rxW).2) :=
  ⟨by decide, data_single_record dp0 dp1 none (some 2) rxW (by decide)⟩
